import Mathlib

/-
Verification of the data-cleaning pipeline in `src/clean_data.py` of the
robot-vacuum repository (CIP_FS25_208).

Shallow embedding conventions:
 - A pandas cell is a `Cell`: `na` models `NaN`/missing, `num q` a Python
   float (modelled as an exact rational), `str s` a Python string.
 - Python exceptions that abort the whole run (KeyError from the column
   projection, ValueError from `float(...)`, AttributeError from using the
   pandas `.str` accessor on a non-string value) are modelled with
   `Except SrcErr`.
 - A raw table is a header (list of column names) plus a list of rows; the
   row structure carries the columns that the verified claims touch, under
   the short names produced by `get_column_rename_mapping` (the rename is a
   pure relabelling).  The full 26-name projection list is kept verbatim for
   the header precondition.
 - Exceptions are sequenced row-major here while pandas raises them
   column-major; whether the run as a whole succeeds or aborts coincides,
   and no theorem below depends on which particular error is raised.
-/

set_option allowUnsafeReducibility true in
attribute [semireducible] Rat.mul Rat.inv Rat.add Rat.sub Rat.neg Rat.ofScientific

deriving instance DecidableEq for Except

namespace CleanData

/-- A pandas cell value: missing (`NaN`), a float (modelled as `ℚ`), or a string. -/
inductive Cell where
  | na : Cell
  | num : ℚ → Cell
  | str : String → Cell
deriving DecidableEq

/-- Test for a missing value, as Python's `pd.isna`. -/
def Cell.isNa : Cell → Bool
  | .na => true
  | _ => false

/-- The Python exceptions the cleaning script can raise: `KeyError` from
`df[important_columns]` when a required column is absent, `ValueError` from
`float(...)` on unparseable text, and `AttributeError` from the pandas `.str`
accessor hitting a non-string value. -/
inductive SrcErr where
  | missingColumn : SrcErr
  | valueError : SrcErr
  | strAccessor : SrcErr
deriving DecidableEq

/-! String helpers, modelling the Python string operations used by the
script over `List Char`. -/

/-- Numeric value of a decimal digit character. -/
def digToNat (c : Char) : ℕ := c.toNat - '0'.toNat

/-- Accumulator loop reading a decimal digit list into a natural number. -/
def natOfDigitsAux : ℕ → List Char → ℕ
  | acc, [] => acc
  | acc, c :: cs => natOfDigitsAux (10 * acc + digToNat c) cs

/-- Natural number denoted by a list of decimal digits. -/
def natOfDigits (l : List Char) : ℕ := natOfDigitsAux 0 l

/-- Magnitude part of Python's `float(...)` on the plain-decimal fragment
`digits`, `digits.digits`, `digits.`, `.digits` (no exponent, no specials;
every string the pipeline's claims evaluate falls in this fragment). -/
def pyFloatMag (l : List Char) : Option ℚ :=
  match l.span Char.isDigit with
  | (ds, []) => if ds.isEmpty then none else some (natOfDigits ds)
  | (ds, '.' :: rest) =>
    match rest.span Char.isDigit with
    | (fs, []) =>
      if ds.isEmpty && fs.isEmpty then none
      else some ((natOfDigits ds : ℚ) + (natOfDigits fs : ℚ) / 10 ^ fs.length)
    | _ => none
  | _ => none

/-- Python `float(s)`: strip surrounding whitespace, optional sign, then a
plain decimal literal; `none` models the `ValueError` branch. -/
def pyFloat? (s : String) : Option ℚ :=
  let l := ((s.toList.dropWhile Char.isWhitespace).reverse.dropWhile Char.isWhitespace).reverse
  match l with
  | '-' :: rest => (pyFloatMag rest).map (fun q => -q)
  | '+' :: rest => pyFloatMag rest
  | _ => pyFloatMag l

/-- Python `s.replace(",", "")`, used before `float` conversion. -/
def stripCommas (s : String) : String := (s.toList.filter (fun c => c != ',')).asString

/-- First maximal run of decimal digits in a string, as matched by the
pandas extraction `.str.extract(r"(\d+)")`; `none` when no digit occurs. -/
def firstDigitRun : List Char → Option ℕ
  | [] => none
  | c :: cs =>
    if c.isDigit then some (natOfDigits (c :: cs.takeWhile Char.isDigit))
    else firstDigitRun cs

/-- Fuel-indexed worker for `pySplit`; the fuel is an upper bound on the
number of steps, so the first branch is never reached from `pySplit`. -/
def splitOnFuel (sep : List Char) : ℕ → List Char → List Char → List (List Char)
  | 0, acc, rest => [acc.reverse ++ rest]
  | _ + 1, acc, [] => [acc.reverse]
  | fuel + 1, acc, c :: rest =>
    if sep.isPrefixOf (c :: rest) then
      acc.reverse :: splitOnFuel sep fuel [] ((c :: rest).drop sep.length)
    else
      splitOnFuel sep fuel (c :: acc) rest

/-- Python `s.split(sep)` for a non-empty separator: split at each
non-overlapping occurrence, left to right, keeping empty pieces. -/
def pySplit (l sep : List Char) : List (List Char) := splitOnFuel sep (l.length + 1) [] l

/-- Python's substring test `sep in s`: the split has more than one piece. -/
def containsSub (l sep : List Char) : Bool := (pySplit l sep).length != 1

/-- Python string comparison: lexicographic on code points. -/
def lexLt : List Char → List Char → Bool
  | [], [] => false
  | [], _ :: _ => true
  | _ :: _, [] => false
  | a :: l1, b :: l2 => if a < b then true else if b < a then false else lexLt l1 l2

/-- Insert into an ascending list, for `sortStrs`. -/
def insertSorted (x : List Char) : List (List Char) → List (List Char)
  | [] => [x]
  | y :: ys => if lexLt y x then y :: insertSorted x ys else x :: y :: ys

/-- Python `sorted(...)` on strings: ascending lexicographic order. -/
def sortStrs (l : List (List Char)) : List (List Char) := l.foldr insertSorted []

/-- Python `", ".join(...)`. -/
def joinCommaSpace : List (List Char) → List Char
  | [] => []
  | [x] => x
  | x :: y :: ys => x ++ ',' :: ' ' :: joinCommaSpace (y :: ys)

/-- The two-character delimiter `", "` used by `merge_colours`. -/
def commaSpace : List Char := [',', ' ']

/-- The token `"min"` located by `extract_minutes`. -/
def minToken : List Char := ['m', 'i', 'n']

/-- Line 191-192 of `clean_data.py`:
`", ".join(sorted(set(color1.split(", ") + color2.split(", "))))`. -/
def sortedColourUnion (s1 s2 : String) : String :=
  (joinCommaSpace (sortStrs ((pySplit s1.toList commaSpace ++
    pySplit s2.toList commaSpace).dedup))).asString

/-! The cleaning functions of `clean_data.py`, translated one-to-one. -/

/-- The hardcoded projection list returned by `get_important_columns`. -/
def get_important_columns : List String :=
  [ "product_name",
    "price",
    "rating",
    "rating_count",
    "Key specifications  Robot type",
    "Key specifications  Robot vacuum cleaner height i",
    "Key specifications  Battery life",
    "Key specifications  Max. noise level",
    "Key specifications  Robot vacuum cleaner features",
    "Key specifications  Smart home ecosystem",
    "General information  Manufacturer",
    "Robot vacuum cleaner properties  Max. Suction power i",
    "Robot vacuum cleaner properties  Filter + Dust bag volume",
    "Robot vacuum cleaner properties  Water tank capacity",
    "Robot vacuum cleaner properties  Suitable surfaces",
    "Robot vacuum cleaner properties  Max. Height door sill",
    "Robot vacuum cleaner properties  Room area i",
    "Battery properties  Battery life",
    "Battery properties  Charging time",
    "Battery properties  Battery type",
    "Battery properties  Capacity",
    "Colour  Colour",
    "Colour  Exact colour description",
    "Model  Model name",
    "Smart home features  Smart Home",
    "Product dimensions  Weight" ]

/-- The static price override table of `get_price_corrections`. -/
def get_price_corrections : List (String × ℚ) :=
  [ ("Samsung Jet Bot Combo AI Steam+ (VR9700)", 1440.05),
    ("Powerology Smart Robotic", 999.00),
    ("Neatron Robot hoover", 989.00),
    ("Aeco Vacubot X3", 979.50),
    ("Blaupunkt Vacuum cleaner - robot vacuum cleaner RVC201, White", 919.00),
    ("Severin RB7023 Robot Vacuum Cleaner Chill black / grey", 919.00) ]

/-- The static battery-capacity override table of `get_battery_corrections`. -/
def get_battery_corrections : List (String × ℚ) :=
  [ ("Mova P50 Pro Ultra", 5200),
    ("Liectroux V3SPro", 4400),
    ("Liectroux L200", 2600) ]

/-- Numeric core of `validate_price` (lines 211-226): bounds 50 and 3000;
above 3000 the code attempts decimal-shift repair only above 5000, dividing
by 10 then by 100 with early return on the first in-range quotient; every
path that does not return early falls through to the final range filter. -/
def validate_price_num (price : ℚ) : Cell :=
  let fallback := if 50 ≤ price ∧ price ≤ 3000 then Cell.num price else Cell.na
  if 3000 < price then
    if 5000 < price then
      if 50 ≤ price / 10 ∧ price / 10 ≤ 3000 then Cell.num (price / 10)
      else if 50 ≤ price / 100 ∧ price / 100 ≤ 3000 then Cell.num (price / 100)
      else fallback
    else fallback
  else fallback

/-- Function `validate_price` of `clean_data.py` (lines 194-226): `NaN`
passes through, strings are converted with `float` after removing commas
(ValueError on failure), then the numeric range logic applies. -/
def validate_price : Cell → Except SrcErr Cell
  | .na => .ok .na
  | .num q => .ok (validate_price_num q)
  | .str s =>
    match pyFloat? (stripCommas s) with
    | some q => .ok (validate_price_num q)
    | none => .error .valueError

/-- Numeric core of `validate_battery_capacity` (lines 122-133): bounds 1000
and 10000; above 10000 the divisors 1000, 100, 10 are tried in that order
with early return on the first in-range quotient; otherwise the final range
filter applies. -/
def validate_battery_capacity_num (capacity : ℚ) : Cell :=
  let fallback := if 1000 ≤ capacity ∧ capacity ≤ 10000 then Cell.num capacity else Cell.na
  if 10000 < capacity then
    if 1000 ≤ capacity / 1000 ∧ capacity / 1000 ≤ 10000 then Cell.num (capacity / 1000)
    else if 1000 ≤ capacity / 100 ∧ capacity / 100 ≤ 10000 then Cell.num (capacity / 100)
    else if 1000 ≤ capacity / 10 ∧ capacity / 10 ≤ 10000 then Cell.num (capacity / 10)
    else fallback
  else fallback

/-- Function `validate_battery_capacity` of `clean_data.py` (lines 105-133). -/
def validate_battery_capacity : Cell → Except SrcErr Cell
  | .na => .ok .na
  | .num q => .ok (validate_battery_capacity_num q)
  | .str s =>
    match pyFloat? (stripCommas s) with
    | some q => .ok (validate_battery_capacity_num q)
    | none => .error .valueError

/-- Function `extract_minutes` of `clean_data.py` (lines 135-152): `NaN`
passes through, numbers pass through unchanged, and for a string the code
initialises `minutes = 0`, overwrites it with `float(s.split("min")[0])`
when the token `"min"` occurs in the string (ValueError when that piece is
not a number), and returns `minutes`. -/
def extract_minutes : Cell → Except SrcErr Cell
  | .na => .ok .na
  | .num q => .ok (.num q)
  | .str s =>
    if containsSub s.toList minToken then
      match pyFloat? ((pySplit s.toList minToken).headD []).asString with
      | some q => .ok (.num q)
      | none => .error .valueError
    else .ok (.num 0)

/-- Function `merge_colours` of `clean_data.py` (lines 169-192).  A missing
or empty first colour yields the second one (or `""` if that is missing
too); a missing or empty second colour yields the first; equal colours
yield either; otherwise the comma-space-separated tokens of both strings
are united, sorted and re-joined.  Reaching `.split` on a non-string value
would raise AttributeError in Python. -/
def merge_colours (color1 color2 : Cell) : Except SrcErr Cell :=
  if color1.isNa || color1 == Cell.str "" then
    .ok (if color2.isNa then Cell.str "" else color2)
  else if color2.isNa || color2 == Cell.str "" then
    .ok color1
  else if color1 == color2 then
    .ok color1
  else
    match color1, color2 with
    | .str s1, .str s2 => .ok (.str (sortedColourUnion s1 s2))
    | _, _ => .error .strAccessor

/-- The pandas step `df["battery_capacity"].str.extract(r"(\d+)").astype(float)`
(line 267): a missing value stays missing, a string yields its first digit
run (or missing when it has none), and a numeric value means the `.str`
accessor is being applied to a non-string column, an AttributeError. -/
def str_extract_digits : Cell → Except SrcErr Cell
  | .na => .ok .na
  | .str s =>
    match firstDigitRun s.toList with
    | some n => .ok (.num n)
    | none => .ok .na
  | .num _ => .error .strAccessor

/-- The price-override loop of `clean_data` (lines 252-254): a row whose
`product_name` equals a key of `get_price_corrections` gets its price
replaced by the corrected value. -/
def apply_price_corrections (name : String) (price : Cell) : Cell :=
  match get_price_corrections.lookup name with
  | some p => .num p
  | none => price

/-- The battery-override loop of `clean_data` (lines 270-272). -/
def apply_battery_corrections (name : String) (capacity : Cell) : Cell :=
  match get_battery_corrections.lookup name with
  | some p => .num p
  | none => capacity

/-! Rows and the table-level pipeline `clean_data` (lines 228-339). -/

/-- A raw input row, under the canonical short column names.  The fields are
the claim-relevant columns of the projection; `rating` is carried through
untouched by the script, as are the remaining projected columns. -/
structure RawRow where
  product_name : String
  price : Cell
  rating : Cell
  battery_life : Cell
  battery_life_spec : Cell
  charging_time : Cell
  battery_capacity : Cell
  color_basic : Cell
  color_exact : Cell
deriving DecidableEq

/-- A cleaned output row: the two colour columns are replaced by the single
merged `color` column (lines 296-298). -/
structure CleanRow where
  product_name : String
  price : Cell
  rating : Cell
  battery_life : Cell
  battery_life_spec : Cell
  charging_time : Cell
  battery_capacity : Cell
  color : Cell
deriving DecidableEq

/-- The per-row effect of the column operations of `clean_data`, in source
order: price overrides (line 254), battery digit extraction (line 267),
battery overrides (line 272), battery validation (line 275), minute
extraction for the three time columns (lines 286-288), colour merging
(line 296), price validation (line 301). -/
def clean_row (r : RawRow) : Except SrcErr CleanRow :=
  match str_extract_digits r.battery_capacity with
  | .error e => .error e
  | .ok bat1 =>
    match validate_battery_capacity (apply_battery_corrections r.product_name bat1) with
    | .error e => .error e
    | .ok bat3 =>
      match extract_minutes r.battery_life with
      | .error e => .error e
      | .ok bl =>
        match extract_minutes r.battery_life_spec with
        | .error e => .error e
        | .ok bls =>
          match extract_minutes r.charging_time with
          | .error e => .error e
          | .ok ct =>
            match merge_colours r.color_basic r.color_exact with
            | .error e => .error e
            | .ok col =>
              match validate_price (apply_price_corrections r.product_name r.price) with
              | .error e => .error e
              | .ok price2 =>
                .ok { product_name := r.product_name, price := price2,
                      rating := r.rating, battery_life := bl,
                      battery_life_spec := bls, charging_time := ct,
                      battery_capacity := bat3, color := col }

/-- Apply a fallible function to every list element; the first raised
exception aborts the whole run, as an uncaught Python exception does. -/
def mapExcept {α β ε : Type} (f : α → Except ε β) : List α → Except ε (List β)
  | [] => .ok []
  | a :: l =>
    match f a with
    | .error e => .error e
    | .ok b =>
      match mapExcept f l with
      | .error e => .error e
      | .ok bs => .ok (b :: bs)

/-- Worker for `dedupFirst`, carrying the set of values already emitted. -/
def dedupFirstAux {α : Type} [DecidableEq α] (seen : List α) : List α → List α
  | [] => []
  | a :: l => if a ∈ seen then dedupFirstAux seen l else a :: dedupFirstAux (a :: seen) l

/-- pandas `drop_duplicates()` (line 313): keep the first occurrence of each
value, preserving order otherwise. -/
def dedupFirst {α : Type} [DecidableEq α] (l : List α) : List α := dedupFirstAux [] l

/-- A raw table: the header of the CSV read by `pd.read_csv`, plus its rows. -/
structure RawTable where
  header : List String
  rows : List RawRow
deriving DecidableEq

/-- The cleaned table written to the output CSV. -/
structure CleanTable where
  rows : List CleanRow
deriving DecidableEq

/-- Function `clean_data` of `clean_data.py` (lines 228-339): the projection
`df[important_columns]` raises KeyError when a required column is missing
from the header (line 245) before any row is processed; otherwise every
column operation runs (modelled per row by `clean_row`, any exception
aborting the run with no output), rows whose validated price is missing are
dropped (line 304), and exact duplicates are removed keeping first
occurrences (line 313).  The output file is written only on success. -/
def clean_data (t : RawTable) : Except SrcErr CleanTable :=
  if ∀ c ∈ get_important_columns, c ∈ t.header then
    match mapExcept clean_row t.rows with
    | .error e => .error e
    | .ok rs => .ok ⟨dedupFirst (rs.filter (fun r => !r.price.isNa))⟩
  else .error .missingColumn

/-- Modelled from the claim C9's wording: the cleaned output re-read as an
input table.  The header is relabelled back to the full required column
list; numeric cells of the output CSV are read back by `pd.read_csv` as
numbers and string cells as strings; the single merged `color` column is
the only colour information left, so it lands in `color_basic` and the
exact-colour column is empty. -/
def relabel_output (t : CleanTable) : RawTable :=
  { header := get_important_columns,
    rows := t.rows.map (fun r =>
      { product_name := r.product_name, price := r.price, rating := r.rating,
        battery_life := r.battery_life, battery_life_spec := r.battery_life_spec,
        charging_time := r.charging_time, battery_capacity := r.battery_capacity,
        color_basic := r.color, color_exact := .na }) }

/-! Concrete sample data, used by the witness and counterexample theorems. -/

/-- A well-formed raw row: battery capacity and times come as unit-suffixed
strings, as scraped data does. -/
def sampleRow : RawRow :=
  { product_name := "X", price := .num 999, rating := .num 4.5,
    battery_life := .str "90 min", battery_life_spec := .na,
    charging_time := .str "240 min", battery_capacity := .str "5200 mAh",
    color_basic := .str "White", color_exact := .na }

/-- The cleaned row the pipeline produces from `sampleRow`. -/
def sampleClean : CleanRow :=
  { product_name := "X", price := .num 999, rating := .num 4.5,
    battery_life := .num 90, battery_life_spec := .na,
    charging_time := .num 240, battery_capacity := .num 5200,
    color := .str "White" }

/-- A raw row whose price 9999999 is unrecoverable by any divisor and whose
other fields are missing. -/
def badRow : RawRow :=
  { product_name := "Y", price := .num 9999999, rating := .na,
    battery_life := .na, battery_life_spec := .na, charging_time := .na,
    battery_capacity := .na, color_basic := .na, color_exact := .na }

/-- The cleaned row produced from `badRow` before the price filter: its
price is missing, so the row is dropped from the output. -/
def badClean : CleanRow :=
  { product_name := "Y", price := .na, rating := .na,
    battery_life := .na, battery_life_spec := .na, charging_time := .na,
    battery_capacity := .na, color := .str "" }

/-- A raw table with the full required header and the single `sampleRow`. -/
def sampleTable : RawTable := ⟨get_important_columns, [sampleRow]⟩

/-- The cleaned output of `sampleTable` (and of `sampleTable2`). -/
def sampleOut : CleanTable := ⟨[sampleClean]⟩

/-- A raw table holding both `sampleRow` and the unrecoverable `badRow`. -/
def sampleTable2 : RawTable := ⟨get_important_columns, [sampleRow, badRow]⟩

/-! General lemmas about the embedded operations. -/

/-- Every value produced by the numeric core of `validate_price` is either
missing or a number in the plausible range. -/
theorem validate_price_num_range (q : ℚ) :
    validate_price_num q = .na ∨
      ∃ p, validate_price_num q = .num p ∧ 50 ≤ p ∧ p ≤ 3000 := by
  unfold validate_price_num
  dsimp only
  split_ifs with h1 h2 h3 h4 h5 <;>
    first
      | exact Or.inl rfl
      | exact Or.inr ⟨_, rfl, by tauto, by tauto⟩

/-- Every non-exceptional result of `validate_price` is either missing or a
number in the plausible range. -/
theorem validate_price_range {c c' : Cell} (h : validate_price c = .ok c') :
    c' = .na ∨ ∃ p, c' = .num p ∧ 50 ≤ p ∧ p ≤ 3000 := by
  cases c with
  | na =>
    simp only [validate_price, Except.ok.injEq] at h
    exact Or.inl h.symm
  | num q =>
    simp only [validate_price, Except.ok.injEq] at h
    exact h ▸ validate_price_num_range q
  | str s =>
    simp only [validate_price] at h
    cases hp : pyFloat? (stripCommas s) with
    | none => rw [hp] at h; cases h
    | some q =>
      rw [hp] at h
      simp only [Except.ok.injEq] at h
      exact h ▸ validate_price_num_range q

/-- Every value produced by the numeric core of `validate_battery_capacity`
is either missing or a number in the plausible range. -/
theorem validate_battery_capacity_num_range (q : ℚ) :
    validate_battery_capacity_num q = .na ∨
      ∃ b, validate_battery_capacity_num q = .num b ∧ 1000 ≤ b ∧ b ≤ 10000 := by
  unfold validate_battery_capacity_num
  dsimp only
  split_ifs with h1 h2 h3 h4 h5 <;>
    first
      | exact Or.inl rfl
      | exact Or.inr ⟨_, rfl, by tauto, by tauto⟩

/-- Every non-exceptional result of `validate_battery_capacity` is either
missing or a number in the plausible range. -/
theorem validate_battery_capacity_range {c c' : Cell}
    (h : validate_battery_capacity c = .ok c') :
    c' = .na ∨ ∃ b, c' = .num b ∧ 1000 ≤ b ∧ b ≤ 10000 := by
  cases c with
  | na =>
    simp only [validate_battery_capacity, Except.ok.injEq] at h
    exact Or.inl h.symm
  | num q =>
    simp only [validate_battery_capacity, Except.ok.injEq] at h
    exact h ▸ validate_battery_capacity_num_range q
  | str s =>
    simp only [validate_battery_capacity] at h
    cases hp : pyFloat? (stripCommas s) with
    | none => rw [hp] at h; cases h
    | some q =>
      rw [hp] at h
      simp only [Except.ok.injEq] at h
      exact h ▸ validate_battery_capacity_num_range q

/-- A successfully cleaned row got its price from `validate_price` (after
the override table) and its battery capacity from
`validate_battery_capacity`. -/
theorem clean_row_fields {r : RawRow} {cr : CleanRow} (h : clean_row r = .ok cr) :
    validate_price (apply_price_corrections r.product_name r.price) = .ok cr.price ∧
    ∃ b, validate_battery_capacity b = .ok cr.battery_capacity := by
  unfold clean_row at h
  repeat' split at h
  all_goals cases h
  exact ⟨by assumption, ⟨_, by assumption⟩⟩

/-- If mapping succeeds, every input element maps to some output element. -/
theorem mapExcept_ok_forward {α β ε : Type} {f : α → Except ε β} :
    ∀ {l : List α} {bs : List β}, mapExcept f l = .ok bs →
      ∀ {a : α}, a ∈ l → ∃ b, f a = .ok b ∧ b ∈ bs := by
  intro l
  induction l with
  | nil => intro bs _ a ha; cases ha
  | cons x xs ih =>
    intro bs h a ha
    unfold mapExcept at h
    cases hx : f x with
    | error e => rw [hx] at h; cases h
    | ok b =>
      rw [hx] at h
      cases hxs : mapExcept f xs with
      | error e => rw [hxs] at h; cases h
      | ok bs' =>
        rw [hxs] at h
        injection h with h
        subst h
        rcases List.mem_cons.mp ha with rfl | ha'
        · exact ⟨b, hx, List.mem_cons_self _ _⟩
        · obtain ⟨b', hb', hmem⟩ := ih hxs ha'
          exact ⟨b', hb', List.mem_cons_of_mem _ hmem⟩

/-- If mapping succeeds, every output element comes from some input element. -/
theorem mapExcept_ok_backward {α β ε : Type} {f : α → Except ε β} :
    ∀ {l : List α} {bs : List β}, mapExcept f l = .ok bs →
      ∀ {b : β}, b ∈ bs → ∃ a, a ∈ l ∧ f a = .ok b := by
  intro l
  induction l with
  | nil =>
    intro bs h b hb
    unfold mapExcept at h
    injection h with h
    subst h
    cases hb
  | cons x xs ih =>
    intro bs h b hb
    unfold mapExcept at h
    cases hx : f x with
    | error e => rw [hx] at h; cases h
    | ok b' =>
      rw [hx] at h
      cases hxs : mapExcept f xs with
      | error e => rw [hxs] at h; cases h
      | ok bs' =>
        rw [hxs] at h
        injection h with h
        subst h
        rcases List.mem_cons.mp hb with rfl | hb'
        · exact ⟨x, List.mem_cons_self _ _, hx⟩
        · obtain ⟨a, ha, hab⟩ := ih hxs hb'
          exact ⟨a, List.mem_cons_of_mem _ ha, hab⟩

/-- A single failing element makes the whole fallible map fail. -/
theorem mapExcept_ne_ok_of_mem_error {α β ε : Type} {f : α → Except ε β}
    {l : List α} {a : α} {e : ε} (ha : a ∈ l) (he : f a = .error e) :
    ∀ bs : List β, mapExcept f l ≠ .ok bs := by
  intro bs h
  obtain ⟨b, hb, _⟩ := mapExcept_ok_forward h ha
  rw [he] at hb
  cases hb

/-- Membership characterisation of the `dedupFirst` worker. -/
theorem mem_dedupFirstAux {α : Type} [DecidableEq α] :
    ∀ (l seen : List α) (x : α), x ∈ dedupFirstAux seen l ↔ (x ∈ l ∧ x ∉ seen)
  | [], seen, x => by simp [dedupFirstAux]
  | a :: l, seen, x => by
    simp only [dedupFirstAux]
    split_ifs with ha
    · rw [mem_dedupFirstAux l seen x]
      simp only [List.mem_cons]
      constructor
      · rintro ⟨h1, h2⟩
        exact ⟨Or.inr h1, h2⟩
      · rintro ⟨h1 | h1, h2⟩
        · subst h1; exact absurd ha h2
        · exact ⟨h1, h2⟩
    · simp only [List.mem_cons, mem_dedupFirstAux l (a :: seen) x]
      by_cases hxa : x = a
      · subst hxa; simp [ha]
      · simp [hxa]

/-- `dedupFirst` keeps exactly the values of the original list. -/
theorem mem_dedupFirst {α : Type} [DecidableEq α] {l : List α} {x : α} :
    x ∈ dedupFirst l ↔ x ∈ l := by
  rw [dedupFirst, mem_dedupFirstAux]
  simp

/-! The claims. -/

/-- Counterexample to claim C1: the claim asserts the decimal-shift repair
for every price above the bound 3000, but the code only attempts it above
the hard-coded 5000 (line 217).  At price 4000 the quotient 400 is in
range, yet the code returns missing. -/
theorem C1_counterexample :
    (3000 : ℚ) < 4000 ∧
    (50 ≤ (4000 : ℚ) / 10 ∧ (4000 : ℚ) / 10 ≤ 3000) ∧
    validate_price (.num 4000) = .ok .na ∧
    validate_price (.num 4000) ≠ .ok (.num ((4000 : ℚ) / 10)) := by decide

/-- Claim C1, amended: only for raw prices above 5000 does the
range-validation step try dividing by 10 and then by 100, returning the
first quotient in [50, 3000] and otherwise missing; a raw price in
(3000, 5000] becomes missing with no division attempted. -/
theorem C1_amended_price_correction (q : ℚ) (h : 3000 < q) :
    validate_price (.num q) = .ok (
      if 5000 < q then
        if 50 ≤ q / 10 ∧ q / 10 ≤ 3000 then .num (q / 10)
        else if 50 ≤ q / 100 ∧ q / 100 ≤ 3000 then .num (q / 100)
        else .na
      else .na) := by
  have hq : ¬ (50 ≤ q ∧ q ≤ 3000) := fun hc => absurd h (not_lt.mpr hc.2)
  simp only [validate_price, Except.ok.injEq]
  unfold validate_price_num
  dsimp only
  rw [if_pos h]
  split_ifs <;> rfl

/-- Witness for the amended C1 at the price 60000: dividing by 10 gives
6000, still out of range, so dividing by 100 yields the result 600. -/
theorem C1_amended_price_correction_witness :
    (3000 : ℚ) < 60000 ∧ validate_price (.num 60000) = .ok (.num 600) := by
  refine ⟨by norm_num, ?_⟩
  have h := C1_amended_price_correction 60000 (by norm_num)
  rw [h]
  decide

/-- Claim C2: every row of the cleaned output has a present price in
[50, 3000], and a battery capacity that is either missing or in
[1000, 10000]. -/
theorem C2_output_invariant (t : RawTable) (out : CleanTable)
    (h : clean_data t = .ok out) :
    ∀ r ∈ out.rows,
      (∃ p : ℚ, r.price = .num p ∧ 50 ≤ p ∧ p ≤ 3000) ∧
      (r.battery_capacity = .na ∨
        ∃ b : ℚ, r.battery_capacity = .num b ∧ 1000 ≤ b ∧ b ≤ 10000) := by
  intro r hr
  unfold clean_data at h
  by_cases hcols : ∀ c ∈ get_important_columns, c ∈ t.header
  · rw [if_pos hcols] at h
    cases hm : mapExcept clean_row t.rows with
    | error e => rw [hm] at h; cases h
    | ok rs =>
      rw [hm] at h
      injection h with h
      subst h
      have hr' : r ∈ dedupFirst (rs.filter (fun r => !r.price.isNa)) := hr
      rw [mem_dedupFirst] at hr'
      obtain ⟨hmem, hpred⟩ := List.mem_filter.mp hr'
      obtain ⟨a, _, ha⟩ := mapExcept_ok_backward hm hmem
      obtain ⟨hprice, b, hbat⟩ := clean_row_fields ha
      constructor
      · rcases validate_price_range hprice with hna | hnum
        · rw [hna] at hpred; cases hpred
        · exact hnum
      · exact validate_battery_capacity_range hbat
  · rw [if_neg hcols] at h; cases h

/-- Witness for C2 on the concrete one-row `sampleTable`. -/
theorem C2_output_invariant_witness :
    (∃ p : ℚ, sampleClean.price = .num p ∧ 50 ≤ p ∧ p ≤ 3000) ∧
    (sampleClean.battery_capacity = .na ∨
      ∃ b : ℚ, sampleClean.battery_capacity = .num b ∧ 1000 ≤ b ∧ b ≤ 10000) :=
  C2_output_invariant sampleTable sampleOut (by decide) sampleClean (by decide)

/-- Claim C3 describes the intended behaviour (matching the docstring of
`extract_minutes`, which promises `np.nan` for invalid input), but the code
returns the initialiser `0` for a non-numeric string containing no `"min"`
token, and passes numeric values through unchanged. -/
theorem C3_unparseable_time_yields_zero :
    extract_minutes (.str "n/a") = .ok (.num 0) ∧
    extract_minutes (.str "n/a") ≠ .ok .na ∧
    extract_minutes (.num 45) = .ok (.num 45) ∧
    extract_minutes (.str "45 min") = .ok (.num 45) := by decide

/-- Claim C4: battery capacity 52000 is corrected by trying the divisors
1000, 100, 10 in order; 52 and 520 are rejected as below 1000, and 5200 is
accepted. -/
theorem C4_battery_52000 :
    validate_battery_capacity (.num 52000) = .ok (.num 5200) ∧
    (52000 : ℚ) / 1000 = 52 ∧ ¬ (1000 ≤ (52 : ℚ) ∧ (52 : ℚ) ≤ 10000) ∧
    (52000 : ℚ) / 100 = 520 ∧ ¬ (1000 ≤ (520 : ℚ) ∧ (520 : ℚ) ≤ 10000) ∧
    (52000 : ℚ) / 10 = 5200 ∧ (1000 ≤ (5200 : ℚ) ∧ (5200 : ℚ) ≤ 10000) := by decide

/-- Claim C5: price 14400.50 is corrected to 1440.05; the quotient by 100
(144.005) would also be in range, so the result shows that division by 10
is tried first. -/
theorem C5_price_14400_50 :
    validate_price (.num 14400.5) = .ok (.num 1440.05) ∧
    (14400.5 : ℚ) / 10 = 1440.05 ∧
    (50 ≤ (1440.05 : ℚ) ∧ (1440.05 : ℚ) ≤ 3000) ∧
    (50 ≤ (14400.5 : ℚ) / 100 ∧ (14400.5 : ℚ) / 100 ≤ 3000) ∧
    (1440.05 : ℚ) ≠ 14400.5 / 100 := by decide

/-- Claim C6: the colour merge prefers the non-empty colour when the other
is empty or missing, keeps the common value when both agree, and otherwise
produces the sorted, deduplicated union of the comma-space-separated
tokens. -/
theorem C6_merge_colours_spec (c1 c2 : Cell) :
    (∀ s : String, (c1 = .na ∨ c1 = .str "") → c2 = .str s → s ≠ "" →
      merge_colours c1 c2 = .ok (.str s)) ∧
    (∀ s : String, c1 = .str s → s ≠ "" → (c2 = .na ∨ c2 = .str "") →
      merge_colours c1 c2 = .ok (.str s)) ∧
    (∀ s : String, c1 = .str s → c2 = .str s → s ≠ "" →
      merge_colours c1 c2 = .ok (.str s)) ∧
    (∀ s1 s2 : String, c1 = .str s1 → c2 = .str s2 → s1 ≠ "" → s2 ≠ "" → s1 ≠ s2 →
      merge_colours c1 c2 = .ok (.str (sortedColourUnion s1 s2))) := by
  refine ⟨?_, ?_, ?_, ?_⟩
  · rintro s (rfl | rfl) rfl hs
    · simp [merge_colours, Cell.isNa]
    · simp [merge_colours, Cell.isNa]
  · rintro s rfl hs (rfl | rfl)
    · simp [merge_colours, Cell.isNa, hs]
    · simp [merge_colours, Cell.isNa, hs]
  · rintro s rfl rfl hs
    simp [merge_colours, Cell.isNa, hs]
  · rintro s1 s2 rfl rfl hs1 hs2 hne
    simp [merge_colours, Cell.isNa, hs1, hs2, hne]

/-- Witness for C6 at the spec's example: basic colour "White, Black" and
exact colour "Black" merge to the sorted union "Black, White". -/
theorem C6_merge_colours_spec_witness :
    merge_colours (.str "White, Black") (.str "Black") = .ok (.str "Black, White") := by
  have h := (C6_merge_colours_spec (.str "White, Black") (.str "Black")).2.2.2
    "White, Black" "Black" rfl rfl (by decide) (by decide) (by decide)
  rw [h]
  decide

/-- Claim C7: a cleaned row whose price is missing never appears in the
output, and a cleaned row with a present price always does — in
particular a missing battery capacity (or any other non-price field)
alone never removes a row. -/
theorem C7_price_mandatory (t : RawTable) (out : CleanTable)
    (h : clean_data t = .ok out) (r : RawRow) (hr : r ∈ t.rows)
    (cr : CleanRow) (hcr : clean_row r = .ok cr) :
    (cr.price = .na → cr ∉ out.rows) ∧ (cr.price ≠ .na → cr ∈ out.rows) := by
  unfold clean_data at h
  by_cases hcols : ∀ c ∈ get_important_columns, c ∈ t.header
  · rw [if_pos hcols] at h
    cases hm : mapExcept clean_row t.rows with
    | error e => rw [hm] at h; cases h
    | ok rs =>
      rw [hm] at h
      injection h with h
      subst h
      constructor
      · intro hna hmem
        have hmem' : cr ∈ dedupFirst (rs.filter (fun r => !r.price.isNa)) := hmem
        rw [mem_dedupFirst] at hmem'
        have hpred := (List.mem_filter.mp hmem').2
        rw [hna] at hpred
        cases hpred
      · intro hne
        obtain ⟨b, hb, hmem⟩ := mapExcept_ok_forward hm hr
        rw [hcr] at hb
        injection hb with hb
        subst hb
        have hpna : cr.price.isNa = false := by
          cases hcp : cr.price with
          | na => exact absurd hcp hne
          | num q => rfl
          | str s => rfl
        show cr ∈ dedupFirst (rs.filter (fun r => !r.price.isNa))
        rw [mem_dedupFirst]
        exact List.mem_filter.mpr ⟨hmem, by simp [hpna]⟩
  · rw [if_neg hcols] at h; cases h

/-- Witness for C7: in the two-row `sampleTable2`, the row with
unrecoverable price is absent from the output while the row that merely
lacks nothing mandatory is present. -/
theorem C7_price_mandatory_witness :
    badClean ∉ sampleOut.rows ∧ sampleClean ∈ sampleOut.rows :=
  ⟨(C7_price_mandatory sampleTable2 sampleOut (by decide) badRow (by decide)
      badClean (by decide)).1 (by decide),
   (C7_price_mandatory sampleTable2 sampleOut (by decide) sampleRow (by decide)
      sampleClean (by decide)).2 (by decide)⟩

/-- Claim C8: when any required source column is missing from the header,
the pipeline fails with the configuration error before any row is
processed, and produces no output table at all (the result is an error for
every possible row list). -/
theorem C8_missing_column_aborts (t : RawTable)
    (h : ¬ ∀ c ∈ get_important_columns, c ∈ t.header) :
    clean_data t = .error .missingColumn := by
  unfold clean_data
  rw [if_neg h]

/-- Witness for C8: a header containing only `product_name` aborts the run
although the rows themselves are well-formed. -/
theorem C8_missing_column_aborts_witness :
    clean_data ⟨["product_name"], [sampleRow]⟩ = .error .missingColumn :=
  C8_missing_column_aborts ⟨["product_name"], [sampleRow]⟩ (by decide)

/-- Counterexample to claim C9: the pipeline run on `sampleTable` yields
`sampleOut`, but run on its own output re-labelled as input (full matching
header) it does not reproduce that output — the numeric battery column hits
the pandas string accessor and the run aborts. -/
theorem C9_counterexample :
    clean_data sampleTable = .ok sampleOut ∧
    clean_data (relabel_output sampleOut) ≠ .ok sampleOut := by decide

/-- Claim C9, amended: the pipeline is a deterministic function of its
input, so two runs on the same raw input agree; but re-running it on its
own cleaned output is NOT the identity: whenever any output row carries a
present (numeric) battery capacity, the re-run aborts in the battery
string-extraction step instead of reproducing the table. -/
theorem C9_amended_determinism_not_reread (t : RawTable) (out : CleanTable)
    (_h : clean_data t = .ok out)
    (hbat : ∃ r ∈ out.rows, ∃ q : ℚ, r.battery_capacity = .num q) :
    clean_data t = clean_data t ∧
    clean_data (relabel_output out) ≠ .ok out := by
  refine ⟨rfl, ?_⟩
  obtain ⟨r, hr, q, hq⟩ := hbat
  intro hcontra
  unfold clean_data at hcontra
  have hcols : ∀ c ∈ get_important_columns, c ∈ (relabel_output out).header :=
    fun c hc => hc
  rw [if_pos hcols] at hcontra
  have hrr : clean_row
      { product_name := r.product_name, price := r.price, rating := r.rating,
        battery_life := r.battery_life, battery_life_spec := r.battery_life_spec,
        charging_time := r.charging_time, battery_capacity := r.battery_capacity,
        color_basic := r.color, color_exact := .na } = .error .strAccessor := by
    simp [clean_row, str_extract_digits, hq]
  have hmem :
      ({ product_name := r.product_name, price := r.price, rating := r.rating,
         battery_life := r.battery_life, battery_life_spec := r.battery_life_spec,
         charging_time := r.charging_time, battery_capacity := r.battery_capacity,
         color_basic := r.color, color_exact := .na } : RawRow) ∈
        (relabel_output out).rows :=
    List.mem_map_of_mem _ hr
  cases hm : mapExcept clean_row (relabel_output out).rows with
  | error e => rw [hm] at hcontra; cases hcontra
  | ok rs => exact mapExcept_ne_ok_of_mem_error hmem hrr rs hm

/-- Witness for the amended C9 on the concrete `sampleTable`, whose output
row has battery capacity 5200. -/
theorem C9_amended_determinism_not_reread_witness :
    clean_data sampleTable = clean_data sampleTable ∧
    clean_data (relabel_output sampleOut) ≠ .ok sampleOut :=
  C9_amended_determinism_not_reread sampleTable sampleOut (by decide)
    ⟨sampleClean, by decide, 5200, by decide⟩

/-- Claim C10: the colour union splits only on the two-character delimiter
comma-space; a comma not followed by a space does not separate tokens, so
"White,Black" stays one token, while "White, Black" splits in two. -/
theorem C10_split_delimiter :
    merge_colours (.str "White,Black") (.str "Black") = .ok (.str "Black, White,Black") ∧
    pySplit "White,Black".toList commaSpace = ["White,Black".toList] ∧
    pySplit "White, Black".toList commaSpace = ["White".toList, "Black".toList] := by decide

end CleanData
